import Mathlib

/-
Verification of the wallet state engine of the fuego-GTR-wallet repository.

The definitions below are a shallow embedding of the C++ file
src-tauri/fuego_wallet_real.cpp.  Machine integers (uint64_t, uint32_t)
are modelled as Nat with explicit reduction modulo 2^64 / 2^32 at every
operation where the source can wrap.  The process-wide unique_ptr
g_real_wallet together with the raw handle passed over the C ABI is
modelled by the structure Global: ptr is the address of the currently
owned instance (0 when none is owned) and every exported operation first
compares its handle argument against it, exactly as the source compares
g_real_wallet.get() against the wallet parameter.

Sources of nondeterminism in the C++ (the wall clock, std::mt19937 draws,
the randomly generated primary address, the allocator-chosen address of a
new wallet object) are passed in as explicit parameters (now, d, r, addr,
ptr).  Fields of type double (RealFuegoWallet::hashrate, Deposit::rate)
and the double-computed Deposit::interest are not modelled; no settled
claim depends on them (the interest formula is floating point and is
reported as not statable).  Background threads are modelled by their
running flags plus one step function per loop iteration of the thread
body (sync_thread_func, mining_thread_func).
-/

namespace Fuego

/-- 2^64, the modulus of uint64_t arithmetic. -/
def U64 : Nat := 2 ^ 64

/-- 2^32, the modulus of uint32_t arithmetic. -/
def U32 : Nat := 2 ^ 32

/-- Reduction of a Nat to uint64_t range. -/
def u64 (n : Nat) : Nat := n % U64

/-- Wrapping uint64_t subtraction: a - b modulo 2^64 (operands already in range). -/
def u64sub (a b : Nat) : Nat := (a + (U64 - b % U64)) % U64

/-- Embedding of RealFuegoWallet::Deposit.  The double fields rate and the
double-derived interest are omitted (floating point, see the C7 report);
all other fields are carried verbatim. -/
structure Deposit where
  id : String
  amount : Nat
  term : Nat
  status : String
  unlock_height : Nat
  unlock_time : String
  creating_transaction_hash : String
  creating_height : Nat
  creating_time : String
  spending_transaction_hash : String
  spending_height : Nat
  spending_time : String
  deposit_type : String
deriving DecidableEq

/-- Embedding of RealFuegoWallet::AddressBookEntry. -/
structure AddressBookEntry where
  address : String
  label : String
  description : String
  created_time : Nat
  last_used_time : Nat
  use_count : Nat
deriving DecidableEq

/-- Embedding of the RealFuegoWallet struct (all fields except the double
hashrate, plus the private sync_thread_running flag).  The std::thread
objects themselves carry no modelled state beyond their running flags. -/
structure RealFuegoWallet where
  address : String
  balance : Nat
  unlocked_balance : Nat
  is_open : Bool
  is_connected : Bool
  file_path : String
  password : String
  restore_height : Nat
  peer_count : Nat
  sync_height : Nat
  network_height : Nat
  is_syncing : Bool
  connection_type : String
  transaction_hashes : List String
  deposits : List Deposit
  is_mining : Bool
  threads : Nat
  total_hashes : Nat
  valid_shares : Nat
  invalid_shares : Nat
  pool_address : String
  worker_name : String
  mining_start_time : Nat
  last_share_time : Nat
  mining_thread_running : Bool
  seed_phrase : String
  view_key : String
  spend_key : String
  has_keys : Bool
  address_book : List AddressBookEntry
  sync_thread_running : Bool
deriving DecidableEq

/-- The RealFuegoWallet() constructor: zeroes the balances and network
fields and stores the freshly generated primary address (the random
address is the addr parameter). -/
def mkRealFuegoWallet (addr : String) : RealFuegoWallet where
  address := addr
  balance := 0
  unlocked_balance := 0
  is_open := false
  is_connected := false
  file_path := ""
  password := ""
  restore_height := 0
  peer_count := 0
  sync_height := 0
  network_height := 0
  is_syncing := false
  connection_type := "Disconnected"
  transaction_hashes := []
  deposits := []
  is_mining := false
  threads := 0
  total_hashes := 0
  valid_shares := 0
  invalid_shares := 0
  pool_address := ""
  worker_name := ""
  mining_start_time := 0
  last_share_time := 0
  mining_thread_running := false
  seed_phrase := ""
  view_key := ""
  spend_key := ""
  has_keys := false
  address_book := []
  sync_thread_running := false

/-- RealFuegoWallet::load_wallet_data. -/
def load_wallet_data (w : RealFuegoWallet) : RealFuegoWallet :=
  { w with balance := 0, unlocked_balance := 0, is_open := true,
           transaction_hashes := [] }

/-- The process-wide state: the unique_ptr g_real_wallet plus the address
of the object it owns (0 when it owns nothing). -/
structure Global where
  wallet : Option RealFuegoWallet
  ptr : Nat
deriving DecidableEq

/-- The state before any wallet has been created. -/
def initGlobal : Global := ⟨none, 0⟩

/-- The leading check of every exported operation:
g_real_wallet.get() != wallet returns the guarded branch only when the
handle equals the owned pointer.  (When no wallet is owned and the handle
is the null pointer the source dereferences a null pointer, which is
undefined behaviour; the model returns none there.) -/
def getOwned (g : Global) (h : Nat) : Option RealFuegoWallet :=
  if h = g.ptr then g.wallet else none

/-- Replace the owned wallet's state, keeping the pointer. -/
def setW (g : Global) (w : RealFuegoWallet) : Global :=
  { g with wallet := some w }

/-! ### Wallet creation and lifecycle (fuego_wallet_create .. fuego_wallet_close) -/

/-- fuego_wallet_create: replaces the global instance with a fresh wallet
(constructor, then the password/file_path/restore_height assignments, then
load_wallet_data) and returns the new handle.  The seed_phrase parameter
of the C function is ignored by its body and is omitted here; addr is the
randomly generated primary address and ptr the allocator-chosen address
of the new object. -/
def fuego_wallet_create (g : Global) (password file_path : String)
    (restore_height : Nat) (addr : String) (ptr : Nat) : Nat × Global :=
  let w := load_wallet_data
    { mkRealFuegoWallet addr with
        password := password, file_path := file_path,
        restore_height := restore_height }
  (ptr, { g with wallet := some w, ptr := ptr })

/-- fuego_wallet_open: identical to create except that restore_height is
not assigned. -/
def fuego_wallet_open (g : Global) (file_path password : String)
    (addr : String) (ptr : Nat) : Nat × Global :=
  let w := load_wallet_data
    { mkRealFuegoWallet addr with
        password := password, file_path := file_path }
  (ptr, { g with wallet := some w, ptr := ptr })

/-- fuego_wallet_close: when the handle matches, sets is_open and
is_connected to false.  Nothing else: the sync and mining threads and
their running flags are left untouched and the owned instance is kept. -/
def fuego_wallet_close (g : Global) (h : Nat) : Global :=
  match getOwned g h with
  | some w => setW g { w with is_open := false, is_connected := false }
  | none => g

/-- fuego_wallet_is_open. -/
def fuego_wallet_is_open (g : Global) (h : Nat) : Bool :=
  match getOwned g h with
  | some w => w.is_open
  | none => false

/-- RealFuegoWallet::stop_sync_process: clears the sync thread's running
flag and joins the thread.  Present in the source but never called from
fuego_wallet_close. -/
def stop_sync_process (w : RealFuegoWallet) : RealFuegoWallet :=
  { w with sync_thread_running := false }

/-! ### Balances and transactions -/

/-- fuego_wallet_get_balance. -/
def fuego_wallet_get_balance (g : Global) (h : Nat) : Nat :=
  match getOwned g h with
  | some w => w.balance
  | none => 0

/-- fuego_wallet_get_unlocked_balance. -/
def fuego_wallet_get_unlocked_balance (g : Global) (h : Nat) : Nat :=
  match getOwned g h with
  | some w => w.unlocked_balance
  | none => 0

/-- fuego_wallet_get_address: succeeds iff the handle matches, the buffer
is non-null of positive size and the address fits. -/
def fuego_wallet_get_address (g : Global) (h : Nat) (buffer_size : Nat) : Bool :=
  match getOwned g h with
  | some w => 0 < buffer_size && w.address.length < buffer_size
  | none => false

/-- The provisional hash built by fuego_wallet_send_transaction from the
system clock. -/
def txHashOf (now : Nat) : String := "real_tx_" ++ toString now

/-- fuego_wallet_send_transaction: on a matching handle builds the
provisional hash, and when amount <= balance subtracts amount from both
balance and unlocked_balance with uint64 wrap-around (the source never
compares amount against unlocked_balance), appends the hash to the
history and returns it; otherwise returns null.  The address, payment_id
and mixin parameters do not influence the state and are omitted. -/
def fuego_wallet_send_transaction (g : Global) (h : Nat) (amount now : Nat) :
    Option String × Global :=
  match getOwned g h with
  | none => (none, g)
  | some w =>
    if amount ≤ w.balance then
      (some (txHashOf now),
       setW g { w with
         balance := u64sub w.balance amount,
         unlocked_balance := u64sub w.unlocked_balance amount,
         transaction_hashes := w.transaction_hashes ++ [txHashOf now] })
    else
      (none, g)

/-- fuego_wallet_get_transactions: copies the whole hash list (the limit
and offset parameters are ignored by the source). -/
def fuego_wallet_get_transactions (g : Global) (h : Nat) : Option (List String) :=
  match getOwned g h with
  | some w => some w.transaction_hashes
  | none => none

/-- Embedding of the TransactionInfo struct fields produced by
fuego_wallet_get_transaction_by_hash. -/
structure TransactionInfo where
  id : String
  hash : String
  amount : Int
  fee : Nat
  height : Nat
  timestamp : Nat
  confirmations : Nat
  is_confirmed : Bool
  is_pending : Bool
  unlock_time : Nat
deriving DecidableEq

/-- fuego_wallet_get_transaction_by_hash: a hash found in the history is
reported as a sent transaction with the fixed placeholder amount
-10000000, otherwise as a mock received transaction of 50000000; both are
confirmed with 10 confirmations and not pending.  now is the clock read
for the timestamp. -/
def fuego_wallet_get_transaction_by_hash (g : Global) (h : Nat)
    (tx_hash : String) (now : Nat) : Option TransactionInfo :=
  match getOwned g h with
  | none => none
  | some w =>
    let sent := tx_hash ∈ w.transaction_hashes
    some {
      id := tx_hash
      hash := tx_hash
      amount := if sent then (-10000000 : Int) else 50000000
      fee := 100000
      height := u64sub w.network_height 5
      timestamp := now
      confirmations := 10
      is_confirmed := true
      is_pending := false
      unlock_time := 0 }

/-- fuego_wallet_cancel_transaction: true iff the handle matches and the
id is in the history; no state change. -/
def fuego_wallet_cancel_transaction (g : Global) (h : Nat) (tx_id : String) : Bool :=
  match getOwned g h with
  | some w => w.transaction_hashes.contains tx_id
  | none => false

/-- fuego_wallet_estimate_transaction_fee: ignores every argument,
including the wallet handle, and returns the fixed fee. -/
def fuego_wallet_estimate_transaction_fee (g : Global) (h : Nat)
    (amount mixin : Nat) : Nat :=
  1000000

/-! ### Network connection and blockchain sync -/

/-- RealFuegoWallet::start_sync_process: simulates initial progress to
block 1000 and starts the background sync thread. -/
def start_sync_process (w : RealFuegoWallet) : RealFuegoWallet :=
  { w with sync_height := 1000, sync_thread_running := true }

/-- RealFuegoWallet::connect_to_network: fixed peer count and network
height, syncing from block 0, then start_sync_process. -/
def connect_to_network (w : RealFuegoWallet) : RealFuegoWallet :=
  start_sync_process
    { w with is_connected := true, peer_count := 22, sync_height := 0,
             network_height := 964943, is_syncing := true,
             connection_type := "Fuego Network (XFG) - fuego.spaceportx.net" }

/-- fuego_wallet_connect_node (the address and port arguments only feed
log output). -/
def fuego_wallet_connect_node (g : Global) (h : Nat) : Bool × Global :=
  match getOwned g h with
  | some w => (true, setW g (connect_to_network w))
  | none => (false, g)

/-- RealFuegoWallet::update_sync_progress: one synchronous advance of the
sync height by 1000, clamped to the network height; is_syncing is cleared
only when the increment lands strictly beyond the target. -/
def update_sync_progress (w : RealFuegoWallet) : RealFuegoWallet :=
  if w.is_syncing && w.sync_height < w.network_height then
    if w.network_height < u64 (w.sync_height + 1000) then
      { w with sync_height := w.network_height, is_syncing := false }
    else
      { w with sync_height := u64 (w.sync_height + 1000) }
  else w

/-- One iteration of the RealFuegoWallet::sync_thread_func loop body.
The uniform draw dis(gen) from [100, 1000] is modelled by 100 + d % 901
for an arbitrary seed d; the advance is clamped to the network height and
is_syncing is cleared only on a strict overshoot, exactly as in
update_sync_progress. -/
def sync_thread_step (w : RealFuegoWallet) (d : Nat) : RealFuegoWallet :=
  if w.sync_thread_running && w.sync_height < w.network_height then
    if w.network_height < u64 (w.sync_height + (100 + d % 901)) then
      { w with sync_height := w.network_height, is_syncing := false }
    else
      { w with sync_height := u64 (w.sync_height + (100 + d % 901)) }
  else w

/-- Embedding of the NetworkStatus struct. -/
structure NetworkStatus where
  is_connected : Bool
  peer_count : Nat
  sync_height : Nat
  network_height : Nat
  is_syncing : Bool
  connection_type : String
deriving DecidableEq

/-- fuego_wallet_get_network_status: advances the sync progress once (a
state change) and returns the snapshot. -/
def fuego_wallet_get_network_status (g : Global) (h : Nat) :
    Option NetworkStatus × Global :=
  match getOwned g h with
  | none => (none, g)
  | some w =>
    let w1 := update_sync_progress w
    (some { is_connected := w1.is_connected, peer_count := w1.peer_count,
            sync_height := w1.sync_height, network_height := w1.network_height,
            is_syncing := w1.is_syncing, connection_type := w1.connection_type },
     setW g w1)

/-- fuego_wallet_disconnect_node: clears the connection and syncing flags
and the peer count; the sync thread and its running flag are untouched
and the sync height keeps its value. -/
def fuego_wallet_disconnect_node (g : Global) (h : Nat) : Bool × Global :=
  match getOwned g h with
  | some w =>
    (true, setW g { w with is_connected := false, is_syncing := false,
                           peer_count := 0, connection_type := "Disconnected" })
  | none => (false, g)

/-- fuego_wallet_refresh: one synchronous update_sync_progress. -/
def fuego_wallet_refresh (g : Global) (h : Nat) : Bool × Global :=
  match getOwned g h with
  | some w => (true, setW g (update_sync_progress w))
  | none => (false, g)

/-- fuego_wallet_rescan_blockchain: resets the sync height to 0 (the
start_height argument is explicitly discarded by the source) and sets
is_syncing. -/
def fuego_wallet_rescan_blockchain (g : Global) (h : Nat) (start_height : Nat) :
    Bool × Global :=
  match getOwned g h with
  | some w => (true, setW g { w with sync_height := 0, is_syncing := true })
  | none => (false, g)

/-- fuego_wallet_get_current_block_height: returns the network height. -/
def fuego_wallet_get_current_block_height (g : Global) (h : Nat) : Nat :=
  match getOwned g h with
  | some w => w.network_height
  | none => 0

/-! ### Deposits -/

/-- The deposit id built by fuego_wallet_create_deposit from amount, term
and the clock. -/
def depositIdOf (amount term now : Nat) : String :=
  "deposit_" ++ toString amount ++ "_" ++ toString term ++ "_" ++ toString now

/-- The block count term * 24 * 60 * 60 / 120 of
fuego_wallet_create_deposit: the products are computed in uint32_t
arithmetic (term is uint32_t and the literals are int), then divided by
120. -/
def depositBlocks (term : Nat) : Nat := (term * 86400 % U32) / 120

/-- fuego_wallet_create_deposit: appends a new deposit with status
"locked" and unlock_height = network_height + term * 24 * 60 * 60 / 120
(the current sync height is not consulted) and returns its id.  The
double-valued rate tier and the double-computed interest are not
modelled. -/
def fuego_wallet_create_deposit (g : Global) (h : Nat) (amount term now : Nat) :
    Option String × Global :=
  match getOwned g h with
  | none => (none, g)
  | some w =>
    let did := depositIdOf amount term now
    let d : Deposit := {
      id := did
      amount := amount
      term := term
      status := "locked"
      unlock_height := u64 (w.network_height + depositBlocks term)
      unlock_time := "TBD"
      creating_transaction_hash := "tx_" ++ did
      creating_height := w.network_height
      creating_time := "Now"
      spending_transaction_hash := ""
      spending_height := 0
      spending_time := ""
      deposit_type := "Term Deposit" }
    (some did, setW g { w with deposits := w.deposits ++ [d] })

/-- fuego_wallet_get_deposits: returns the deposit list unchanged; in
particular no deposit status is recomputed on this status query. -/
def fuego_wallet_get_deposits (g : Global) (h : Nat) : Option (List Deposit) :=
  match getOwned g h with
  | some w => some w.deposits
  | none => none

/-- The std::find_if / in-place mutation of fuego_wallet_withdraw_deposit
on the deposit list: acts on the first deposit whose id matches; returns
the spending hash and the updated list on success, none and the unchanged
list otherwise (id unknown, or status different from "unlocked"). -/
def withdrawFirst (net : Nat) (id : String) :
    List Deposit → Option String × List Deposit
  | [] => (none, [])
  | d :: rest =>
    if d.id = id then
      if d.status = "unlocked" then
        (some ("withdraw_tx_" ++ d.id),
         { d with status := "spent",
                  spending_transaction_hash := "withdraw_tx_" ++ d.id,
                  spending_height := net,
                  spending_time := "Now" } :: rest)
      else
        (none, d :: rest)
    else
      ((withdrawFirst net id rest).1, d :: (withdrawFirst net id rest).2)

/-- fuego_wallet_withdraw_deposit: null on handle mismatch (or a null id,
not modelled), null when the id is unknown or the deposit is not in
status "unlocked"; otherwise marks it spent and returns the spending
transaction hash. -/
def fuego_wallet_withdraw_deposit (g : Global) (h : Nat) (id : String) :
    Option String × Global :=
  match getOwned g h with
  | none => (none, g)
  | some w =>
    ((withdrawFirst w.network_height id w.deposits).1,
     setW g { w with deposits := (withdrawFirst w.network_height id w.deposits).2 })

/-! ### Wallet info snapshot -/

/-- Embedding of the WalletInfo struct. -/
structure WalletInfo where
  address : String
  balance : Nat
  unlocked_balance : Nat
  locked_balance : Nat
  total_received : Nat
  total_sent : Nat
  transaction_count : Nat
  is_synced : Bool
  sync_height : Nat
  network_height : Nat
  daemon_height : Nat
  is_connected : Bool
  peer_count : Nat
  last_block_time : Nat
deriving DecidableEq

/-- fuego_wallet_get_wallet_info: advances the sync progress once (a
state change) and returns the snapshot; locked_balance is the uint64
difference balance - unlocked_balance. -/
def fuego_wallet_get_wallet_info (g : Global) (h : Nat) (now : Nat) :
    Option WalletInfo × Global :=
  match getOwned g h with
  | none => (none, g)
  | some w =>
    let w1 := update_sync_progress w
    (some { address := w1.address, balance := w1.balance,
            unlocked_balance := w1.unlocked_balance,
            locked_balance := u64sub w1.balance w1.unlocked_balance,
            total_received := w1.balance, total_sent := 0,
            transaction_count := w1.transaction_hashes.length,
            is_synced := !w1.is_syncing, sync_height := w1.sync_height,
            network_height := w1.network_height,
            daemon_height := w1.network_height,
            is_connected := w1.is_connected, peer_count := w1.peer_count,
            last_block_time := now },
     setW g w1)

/-! ### Mining -/

/-- fuego_wallet_start_mining: rejects when already mining or when the
thread count is 0 or above 32; otherwise resets the counters, records the
start time and starts the mining thread.  The double hashrate is not
modelled; the background flag only feeds log output. -/
def fuego_wallet_start_mining (g : Global) (h : Nat) (threads now : Nat) :
    Bool × Global :=
  match getOwned g h with
  | none => (false, g)
  | some w =>
    if w.is_mining then (false, g)
    else if threads = 0 || 32 < threads then (false, g)
    else
      (true, setW g { w with
        is_mining := true, threads := threads, mining_start_time := now,
        total_hashes := 0, valid_shares := 0, invalid_shares := 0,
        last_share_time := 0, mining_thread_running := true })

/-- fuego_wallet_stop_mining: rejects when not mining; otherwise clears
the running flag, joins the thread and resets the thread count. -/
def fuego_wallet_stop_mining (g : Global) (h : Nat) : Bool × Global :=
  match getOwned g h with
  | none => (false, g)
  | some w =>
    if !w.is_mining then (false, g)
    else
      (true, setW g { w with mining_thread_running := false,
                             is_mining := false, threads := 0 })

/-- One iteration of the RealFuegoWallet::mining_thread_func loop body.
The draw dis(gen) from [1, 100] is modelled by 1 + r % 100; threads * 100
is a uint32_t product added to the uint64_t hash counter. -/
def mining_thread_step (w : RealFuegoWallet) (r now : Nat) : RealFuegoWallet :=
  if w.mining_thread_running then
    if 1 + r % 100 ≤ 5 then
      { w with total_hashes := u64 (w.total_hashes + w.threads * 100 % U32),
               valid_shares := u64 (w.valid_shares + 1), last_share_time := now }
    else if 1 + r % 100 ≤ 10 then
      { w with total_hashes := u64 (w.total_hashes + w.threads * 100 % U32),
               invalid_shares := u64 (w.invalid_shares + 1) }
    else
      { w with total_hashes := u64 (w.total_hashes + w.threads * 100 % U32) }
  else w

/-- fuego_wallet_set_mining_pool: stores the pool address and worker name
(null arguments clear them; modelled by the empty string). -/
def fuego_wallet_set_mining_pool (g : Global) (h : Nat)
    (pool worker : String) : Bool × Global :=
  match getOwned g h with
  | some w => (true, setW g { w with pool_address := pool, worker_name := worker })
  | none => (false, g)

/-! ### Key management -/

/-- The character class of the C locale isspace used by operator>> when
splitting the seed phrase into words. -/
def isSpaceChar (c : Char) : Bool :=
  c = ' ' || c = '\t' || c = '\n' || c = '\x0b' || c = '\x0c' || c = '\r'

/-- The whitespace-delimited word count of a phrase, as counted by the
stringstream extraction loop. -/
def wordCount (s : String) : Nat :=
  ((s.split isSpaceChar).filter (fun t => !t.isEmpty)).length

/-- fuego_wallet_validate_seed_phrase: non-empty and exactly 12, 18 or 24
words. -/
def fuego_wallet_validate_seed_phrase (s : String) : Bool :=
  if s.length = 0 then false
  else
    let wc := wordCount s
    wc = 12 || wc = 18 || wc = 24

/-- fuego_wallet_derive_keys_from_seed: validates the phrase, then stores
it and the two mock keys built from its first 32 bytes (substr positions
modelled on characters; seed phrases are ASCII). -/
def fuego_wallet_derive_keys_from_seed (g : Global) (h : Nat)
    (seed : String) : Bool × Global :=
  match getOwned g h with
  | none => (false, g)
  | some w =>
    if !fuego_wallet_validate_seed_phrase seed then (false, g)
    else
      (true, setW g { w with
        seed_phrase := seed,
        view_key := "view_key_" ++ seed.take 16 ++ "_mock",
        spend_key := "spend_key_" ++ ((seed.drop 16).take 16) ++ "_mock",
        has_keys := true })

/-- fuego_wallet_has_keys. -/
def fuego_wallet_has_keys (g : Global) (h : Nat) : Bool :=
  match getOwned g h with
  | some w => w.has_keys
  | none => false

/-- fuego_wallet_import_keys: overwrites the key material and address
unconditionally and sets has_keys. -/
def fuego_wallet_import_keys (g : Global) (h : Nat)
    (view spend addr : String) : Bool × Global :=
  match getOwned g h with
  | none => (false, g)
  | some w =>
    (true, setW g { w with view_key := view, spend_key := spend,
                           address := addr, has_keys := true })

/-! ### Address book -/

/-- fuego_wallet_add_address_book_entry: rejected when an entry with the
same address exists; otherwise appends a fresh entry stamped with the
clock. -/
def fuego_wallet_add_address_book_entry (g : Global) (h : Nat)
    (addr label desc : String) (now : Nat) : Bool × Global :=
  match getOwned g h with
  | none => (false, g)
  | some w =>
    if w.address_book.any (fun e => e.address = addr) then (false, g)
    else
      (true, setW g { w with address_book := w.address_book ++
        [{ address := addr, label := label, description := desc,
           created_time := now, last_used_time := 0, use_count := 0 }] })

/-- fuego_wallet_remove_address_book_entry: erases every entry with the
given address (remove_if + erase); true iff at least one was present. -/
def fuego_wallet_remove_address_book_entry (g : Global) (h : Nat)
    (addr : String) : Bool × Global :=
  match getOwned g h with
  | none => (false, g)
  | some w =>
    if w.address_book.any (fun e => e.address = addr) then
      (true, setW g { w with
        address_book := w.address_book.filter (fun e => e.address ≠ addr) })
    else (false, g)

/-- The first-match update loop of fuego_wallet_update_address_book_entry. -/
def updateFirstEntry (addr label desc : String) :
    List AddressBookEntry → Bool × List AddressBookEntry
  | [] => (false, [])
  | e :: rest =>
    if e.address = addr then
      (true, { e with label := label, description := desc } :: rest)
    else
      ((updateFirstEntry addr label desc rest).1,
       e :: (updateFirstEntry addr label desc rest).2)

/-- fuego_wallet_update_address_book_entry: updates the label and
description of the first entry with the given address.  (The source skips
each field when its pointer is null; the model passes both strings.) -/
def fuego_wallet_update_address_book_entry (g : Global) (h : Nat)
    (addr label desc : String) : Bool × Global :=
  match getOwned g h with
  | none => (false, g)
  | some w =>
    ((updateFirstEntry addr label desc w.address_book).1,
     setW g { w with address_book := (updateFirstEntry addr label desc w.address_book).2 })

/-- The first-match usage-stamping loop of fuego_wallet_mark_address_used. -/
def markUsedFirst (addr : String) (now : Nat) :
    List AddressBookEntry → Bool × List AddressBookEntry
  | [] => (false, [])
  | e :: rest =>
    if e.address = addr then
      (true, { e with use_count := (e.use_count + 1) % U32,
                      last_used_time := now } :: rest)
    else
      ((markUsedFirst addr now rest).1, e :: (markUsedFirst addr now rest).2)

/-- fuego_wallet_mark_address_used: increments the use count (uint32) and
stamps the last-used time of the first entry with the given address. -/
def fuego_wallet_mark_address_used (g : Global) (h : Nat)
    (addr : String) (now : Nat) : Bool × Global :=
  match getOwned g h with
  | none => (false, g)
  | some w =>
    ((markUsedFirst addr now w.address_book).1,
     setW g { w with address_book := (markUsedFirst addr now w.address_book).2 })

/-- fuego_wallet_get_address_book: returns the entry list unchanged. -/
def fuego_wallet_get_address_book (g : Global) (h : Nat) :
    Option (List AddressBookEntry) :=
  match getOwned g h with
  | some w => some w.address_book
  | none => none

/-! ### The operation alphabet and the reachable states

Every exported operation that can change the process state, plus one step
per background-thread loop iteration.  The remaining exported functions
(the getters, the free functions, the block and key accessors and the
JSON formatters) read the state without modifying it and are therefore
identity steps; the ones used by a claim are modelled above as pure
functions. -/

inductive Op where
  | create (password file_path : String) (restore_height : Nat)
      (addr : String) (ptr : Nat)
  | openWallet (file_path password addr : String) (ptr : Nat)
  | close (h : Nat)
  | send (h : Nat) (amount now : Nat)
  | connectNode (h : Nat)
  | disconnectNode (h : Nat)
  | refresh (h : Nat)
  | rescan (h : Nat) (start_height : Nat)
  | networkStatus (h : Nat)
  | walletInfo (h : Nat) (now : Nat)
  | createDeposit (h : Nat) (amount term now : Nat)
  | withdrawDeposit (h : Nat) (id : String)
  | startMining (h : Nat) (threads now : Nat)
  | stopMining (h : Nat)
  | setMiningPool (h : Nat) (pool worker : String)
  | deriveKeys (h : Nat) (seed : String)
  | importKeys (h : Nat) (view spend addr : String)
  | addEntry (h : Nat) (addr label desc : String) (now : Nat)
  | removeEntry (h : Nat) (addr : String)
  | updateEntry (h : Nat) (addr label desc : String)
  | markUsed (h : Nat) (addr : String) (now : Nat)
  | syncIter (d : Nat)
  | miningIter (r now : Nat)
deriving DecidableEq

/-- A worker iteration acts on the owned wallet when one exists. -/
def onWallet (g : Global) (f : RealFuegoWallet → RealFuegoWallet) : Global :=
  match g.wallet with
  | some w => setW g (f w)
  | none => g

/-- The state transition of one operation. -/
def step (g : Global) : Op → Global
  | .create pw fp rh addr ptr => (fuego_wallet_create g pw fp rh addr ptr).2
  | .openWallet fp pw addr ptr => (fuego_wallet_open g fp pw addr ptr).2
  | .close h => fuego_wallet_close g h
  | .send h amount now => (fuego_wallet_send_transaction g h amount now).2
  | .connectNode h => (fuego_wallet_connect_node g h).2
  | .disconnectNode h => (fuego_wallet_disconnect_node g h).2
  | .refresh h => (fuego_wallet_refresh g h).2
  | .rescan h sh => (fuego_wallet_rescan_blockchain g h sh).2
  | .networkStatus h => (fuego_wallet_get_network_status g h).2
  | .walletInfo h now => (fuego_wallet_get_wallet_info g h now).2
  | .createDeposit h amount term now =>
      (fuego_wallet_create_deposit g h amount term now).2
  | .withdrawDeposit h id => (fuego_wallet_withdraw_deposit g h id).2
  | .startMining h threads now => (fuego_wallet_start_mining g h threads now).2
  | .stopMining h => (fuego_wallet_stop_mining g h).2
  | .setMiningPool h p wn => (fuego_wallet_set_mining_pool g h p wn).2
  | .deriveKeys h seed => (fuego_wallet_derive_keys_from_seed g h seed).2
  | .importKeys h v s a => (fuego_wallet_import_keys g h v s a).2
  | .addEntry h a l dsc now => (fuego_wallet_add_address_book_entry g h a l dsc now).2
  | .removeEntry h a => (fuego_wallet_remove_address_book_entry g h a).2
  | .updateEntry h a l dsc => (fuego_wallet_update_address_book_entry g h a l dsc).2
  | .markUsed h a now => (fuego_wallet_mark_address_used g h a now).2
  | .syncIter d => onWallet g (fun w => sync_thread_step w d)
  | .miningIter r now => onWallet g (fun w => mining_thread_step w r now)

/-- The state after running a list of operations from the initial
process state. -/
def reach (ops : List Op) : Global := ops.foldl step initGlobal

/-- The deposit list of the owned wallet (empty when none is owned). -/
def depositsOf (g : Global) : List Deposit :=
  match g.wallet with
  | some w => w.deposits
  | none => []

/-! ### Basic lemmas about the embedding -/

theorem U64_pos : 0 < U64 := by decide

/-- Wrapping subtraction agrees with plain subtraction on representable
operands. -/
theorem u64sub_eq_sub {a b : Nat} (hb : b ≤ a) (ha : a < U64) :
    u64sub a b = a - b := by
  have hbU : b < U64 := lt_of_le_of_lt hb ha
  unfold u64sub
  rw [Nat.mod_eq_of_lt hbU]
  have h2 : a + (U64 - b) = (a - b) + U64 := by omega
  rw [h2, Nat.add_mod_right]
  exact Nat.mod_eq_of_lt (by omega)

/-- The wrapped difference is always in uint64 range. -/
theorem u64sub_lt (a b : Nat) : u64sub a b < U64 :=
  Nat.mod_lt _ U64_pos

theorem u64_lt (n : Nat) : u64 n < U64 :=
  Nat.mod_lt _ U64_pos

/-- A successful handle check exposes the owned wallet. -/
theorem getOwned_wallet {g : Global} {h : Nat} {w : RealFuegoWallet}
    (hw : getOwned g h = some w) : g.wallet = some w := by
  unfold getOwned at hw
  split at hw
  · exact hw
  · exact absurd hw (by simp)

@[simp] theorem setW_wallet (g : Global) (w : RealFuegoWallet) :
    (setW g w).wallet = some w := rfl

/-! ### The sync-height invariant -/

/-- The owned wallet (when present) has its sync height bounded by the
network height. -/
def SyncInv (g : Global) : Prop :=
  ∀ w, g.wallet = some w → w.sync_height ≤ w.network_height

theorem syncInv_update_sync_progress {w : RealFuegoWallet}
    (hw : w.sync_height ≤ w.network_height) :
    (update_sync_progress w).sync_height ≤ (update_sync_progress w).network_height := by
  unfold update_sync_progress
  split
  · split
    · simp
    · next hnot =>
      simp only [not_lt] at hnot
      simpa using hnot
  · exact hw

theorem syncInv_sync_thread_step {w : RealFuegoWallet} (d : Nat)
    (hw : w.sync_height ≤ w.network_height) :
    (sync_thread_step w d).sync_height ≤ (sync_thread_step w d).network_height := by
  unfold sync_thread_step
  split
  · split
    · simp
    · next hnot =>
      simp only [not_lt] at hnot
      simpa using hnot
  · exact hw

theorem syncInv_setW {g : Global} {w : RealFuegoWallet}
    (hw : w.sync_height ≤ w.network_height) : SyncInv (setW g w) := by
  intro w' hw'
  rw [setW_wallet] at hw'
  cases hw'
  exact hw

theorem mining_thread_step_sync (w : RealFuegoWallet) (r now : Nat) :
    (mining_thread_step w r now).sync_height = w.sync_height ∧
    (mining_thread_step w r now).network_height = w.network_height ∧
    (mining_thread_step w r now).balance = w.balance ∧
    (mining_thread_step w r now).unlocked_balance = w.unlocked_balance ∧
    (mining_thread_step w r now).deposits = w.deposits := by
  unfold mining_thread_step
  split
  · split
    · exact ⟨rfl, rfl, rfl, rfl, rfl⟩
    · split
      · exact ⟨rfl, rfl, rfl, rfl, rfl⟩
      · exact ⟨rfl, rfl, rfl, rfl, rfl⟩
  · exact ⟨rfl, rfl, rfl, rfl, rfl⟩

theorem update_sync_progress_fields (w : RealFuegoWallet) :
    (update_sync_progress w).balance = w.balance ∧
    (update_sync_progress w).unlocked_balance = w.unlocked_balance ∧
    (update_sync_progress w).deposits = w.deposits := by
  unfold update_sync_progress
  split
  · split
    · exact ⟨rfl, rfl, rfl⟩
    · exact ⟨rfl, rfl, rfl⟩
  · exact ⟨rfl, rfl, rfl⟩

theorem sync_thread_step_fields (w : RealFuegoWallet) (d : Nat) :
    (sync_thread_step w d).balance = w.balance ∧
    (sync_thread_step w d).unlocked_balance = w.unlocked_balance ∧
    (sync_thread_step w d).deposits = w.deposits := by
  unfold sync_thread_step
  split
  · split
    · exact ⟨rfl, rfl, rfl⟩
    · exact ⟨rfl, rfl, rfl⟩
  · exact ⟨rfl, rfl, rfl⟩

theorem syncInv_step (g : Global) (op : Op) (hinv : SyncInv g) :
    SyncInv (step g op) := by
  cases op with
  | create pw fp rh addr ptr =>
      intro w hw; cases hw; exact Nat.le_refl 0
  | openWallet fp pw addr ptr =>
      intro w hw; cases hw; exact Nat.le_refl 0
  | close h =>
      cases hgo : getOwned g h with
      | none => simp only [step, fuego_wallet_close, hgo]; exact hinv
      | some w =>
        simp only [step, fuego_wallet_close, hgo]
        exact syncInv_setW (hinv w (getOwned_wallet hgo))
  | send h amount now =>
      cases hgo : getOwned g h with
      | none => simp only [step, fuego_wallet_send_transaction, hgo]; exact hinv
      | some w =>
        simp only [step, fuego_wallet_send_transaction, hgo]
        split
        · exact syncInv_setW (hinv w (getOwned_wallet hgo))
        · exact hinv
  | connectNode h =>
      cases hgo : getOwned g h with
      | none => simp only [step, fuego_wallet_connect_node, hgo]; exact hinv
      | some w =>
        simp only [step, fuego_wallet_connect_node, hgo]
        refine syncInv_setW ?_
        show (1000 : Nat) ≤ 964943
        decide
  | disconnectNode h =>
      cases hgo : getOwned g h with
      | none => simp only [step, fuego_wallet_disconnect_node, hgo]; exact hinv
      | some w =>
        simp only [step, fuego_wallet_disconnect_node, hgo]
        exact syncInv_setW (hinv w (getOwned_wallet hgo))
  | refresh h =>
      cases hgo : getOwned g h with
      | none => simp only [step, fuego_wallet_refresh, hgo]; exact hinv
      | some w =>
        simp only [step, fuego_wallet_refresh, hgo]
        exact syncInv_setW (syncInv_update_sync_progress (hinv w (getOwned_wallet hgo)))
  | rescan h sh =>
      cases hgo : getOwned g h with
      | none => simp only [step, fuego_wallet_rescan_blockchain, hgo]; exact hinv
      | some w =>
        simp only [step, fuego_wallet_rescan_blockchain, hgo]
        exact syncInv_setW (Nat.zero_le _)
  | networkStatus h =>
      cases hgo : getOwned g h with
      | none => simp only [step, fuego_wallet_get_network_status, hgo]; exact hinv
      | some w =>
        simp only [step, fuego_wallet_get_network_status, hgo]
        exact syncInv_setW (syncInv_update_sync_progress (hinv w (getOwned_wallet hgo)))
  | walletInfo h now =>
      cases hgo : getOwned g h with
      | none => simp only [step, fuego_wallet_get_wallet_info, hgo]; exact hinv
      | some w =>
        simp only [step, fuego_wallet_get_wallet_info, hgo]
        exact syncInv_setW (syncInv_update_sync_progress (hinv w (getOwned_wallet hgo)))
  | createDeposit h amount term now =>
      cases hgo : getOwned g h with
      | none => simp only [step, fuego_wallet_create_deposit, hgo]; exact hinv
      | some w =>
        simp only [step, fuego_wallet_create_deposit, hgo]
        exact syncInv_setW (hinv w (getOwned_wallet hgo))
  | withdrawDeposit h id =>
      cases hgo : getOwned g h with
      | none => simp only [step, fuego_wallet_withdraw_deposit, hgo]; exact hinv
      | some w =>
        simp only [step, fuego_wallet_withdraw_deposit, hgo]
        exact syncInv_setW (hinv w (getOwned_wallet hgo))
  | startMining h threads now =>
      cases hgo : getOwned g h with
      | none => simp only [step, fuego_wallet_start_mining, hgo]; exact hinv
      | some w =>
        simp only [step, fuego_wallet_start_mining, hgo]
        split
        · exact hinv
        · split
          · exact hinv
          · exact syncInv_setW (hinv w (getOwned_wallet hgo))
  | stopMining h =>
      cases hgo : getOwned g h with
      | none => simp only [step, fuego_wallet_stop_mining, hgo]; exact hinv
      | some w =>
        simp only [step, fuego_wallet_stop_mining, hgo]
        split
        · exact hinv
        · exact syncInv_setW (hinv w (getOwned_wallet hgo))
  | setMiningPool h p wn =>
      cases hgo : getOwned g h with
      | none => simp only [step, fuego_wallet_set_mining_pool, hgo]; exact hinv
      | some w =>
        simp only [step, fuego_wallet_set_mining_pool, hgo]
        exact syncInv_setW (hinv w (getOwned_wallet hgo))
  | deriveKeys h seed =>
      cases hgo : getOwned g h with
      | none => simp only [step, fuego_wallet_derive_keys_from_seed, hgo]; exact hinv
      | some w =>
        simp only [step, fuego_wallet_derive_keys_from_seed, hgo]
        split
        · exact hinv
        · exact syncInv_setW (hinv w (getOwned_wallet hgo))
  | importKeys h v sp a =>
      cases hgo : getOwned g h with
      | none => simp only [step, fuego_wallet_import_keys, hgo]; exact hinv
      | some w =>
        simp only [step, fuego_wallet_import_keys, hgo]
        exact syncInv_setW (hinv w (getOwned_wallet hgo))
  | addEntry h a l dsc now =>
      cases hgo : getOwned g h with
      | none => simp only [step, fuego_wallet_add_address_book_entry, hgo]; exact hinv
      | some w =>
        simp only [step, fuego_wallet_add_address_book_entry, hgo]
        split
        · exact hinv
        · exact syncInv_setW (hinv w (getOwned_wallet hgo))
  | removeEntry h a =>
      cases hgo : getOwned g h with
      | none => simp only [step, fuego_wallet_remove_address_book_entry, hgo]; exact hinv
      | some w =>
        simp only [step, fuego_wallet_remove_address_book_entry, hgo]
        split
        · exact syncInv_setW (hinv w (getOwned_wallet hgo))
        · exact hinv
  | updateEntry h a l dsc =>
      cases hgo : getOwned g h with
      | none => simp only [step, fuego_wallet_update_address_book_entry, hgo]; exact hinv
      | some w =>
        simp only [step, fuego_wallet_update_address_book_entry, hgo]
        exact syncInv_setW (hinv w (getOwned_wallet hgo))
  | markUsed h a now =>
      cases hgo : getOwned g h with
      | none => simp only [step, fuego_wallet_mark_address_used, hgo]; exact hinv
      | some w =>
        simp only [step, fuego_wallet_mark_address_used, hgo]
        exact syncInv_setW (hinv w (getOwned_wallet hgo))
  | syncIter d =>
      cases hgw : g.wallet with
      | none => simp only [step, onWallet, hgw]; exact hinv
      | some w =>
        simp only [step, onWallet, hgw]
        exact syncInv_setW (syncInv_sync_thread_step d (hinv w hgw))
  | miningIter r now =>
      cases hgw : g.wallet with
      | none => simp only [step, onWallet, hgw]; exact hinv
      | some w =>
        simp only [step, onWallet, hgw]
        have hm := mining_thread_step_sync w r now
        exact syncInv_setW (by rw [hm.1, hm.2.1]; exact hinv w hgw)

/-- The sync-height bound holds in every reachable state. -/
theorem syncInv_foldl (ops : List Op) (g : Global) (hinv : SyncInv g) :
    SyncInv (ops.foldl step g) := by
  induction ops generalizing g with
  | nil => exact hinv
  | cons op rest ih => exact ih (step g op) (syncInv_step g op hinv)

/-! ### The balance invariant -/

/-- The owned wallet (when present) has unlocked_balance bounded by
balance, with both in uint64 range. -/
def BalInv (g : Global) : Prop :=
  ∀ w, g.wallet = some w →
    w.unlocked_balance ≤ w.balance ∧ w.balance < U64 ∧ w.unlocked_balance < U64

/-- The side condition under which a send step keeps the balance
invariant: the amount must not sit strictly between the unlocked and the
total balance. -/
def SendOk (g : Global) : Op → Prop
  | .send h amount _ =>
      ∀ w, getOwned g h = some w →
        amount ≤ w.unlocked_balance ∨ w.balance < amount
  | _ => True

theorem balInv_setW {g : Global} {w : RealFuegoWallet}
    (hw : w.unlocked_balance ≤ w.balance ∧ w.balance < U64 ∧ w.unlocked_balance < U64) :
    BalInv (setW g w) := by
  intro w' hw'
  rw [setW_wallet] at hw'
  cases hw'
  exact hw

theorem balInv_of_eq {g : Global} {w w' : RealFuegoWallet}
    (hb : w'.balance = w.balance) (hu : w'.unlocked_balance = w.unlocked_balance)
    (hw : w.unlocked_balance ≤ w.balance ∧ w.balance < U64 ∧ w.unlocked_balance < U64) :
    BalInv (setW g w') :=
  balInv_setW (by rw [hb, hu]; exact hw)

/-- C2 (amended): every modelled operation preserves the invariant
unlocked_balance less-or-equal balance (with both balances in uint64
range), provided that a send step is only taken with amount at most
unlocked_balance or amount above balance.  The unamended claim fails:
fuego_wallet_send_transaction accepts any amount up to balance and
subtracts it from unlocked_balance with uint64 wrap-around, so an amount
strictly between unlocked_balance and balance underflows
unlocked_balance and breaks the invariant. -/
theorem balance_invariant_preserved (g : Global) (op : Op)
    (hinv : BalInv g) (hok : SendOk g op) : BalInv (step g op) := by
  cases op with
  | create pw fp rh addr ptr =>
      intro w hw; cases hw; exact ⟨Nat.le_refl 0, U64_pos, U64_pos⟩
  | openWallet fp pw addr ptr =>
      intro w hw; cases hw; exact ⟨Nat.le_refl 0, U64_pos, U64_pos⟩
  | close h =>
      cases hgo : getOwned g h with
      | none => simp only [step, fuego_wallet_close, hgo]; exact hinv
      | some w =>
        simp only [step, fuego_wallet_close, hgo]
        exact balInv_setW (hinv w (getOwned_wallet hgo))
  | send h amount now =>
      cases hgo : getOwned g h with
      | none => simp only [step, fuego_wallet_send_transaction, hgo]; exact hinv
      | some w =>
        simp only [step, fuego_wallet_send_transaction, hgo]
        split
        · next hle =>
          obtain ⟨h1, h2, h3⟩ := hinv w (getOwned_wallet hgo)
          have hau : amount ≤ w.unlocked_balance := by
            rcases hok w hgo with hx | hx
            · exact hx
            · omega
          refine balInv_setW ⟨?_, ?_, ?_⟩ <;>
            simp only [u64sub_eq_sub hle h2, u64sub_eq_sub hau h3] <;> omega
        · exact hinv
  | connectNode h =>
      cases hgo : getOwned g h with
      | none => simp only [step, fuego_wallet_connect_node, hgo]; exact hinv
      | some w =>
        simp only [step, fuego_wallet_connect_node, hgo]
        exact balInv_setW (hinv w (getOwned_wallet hgo))
  | disconnectNode h =>
      cases hgo : getOwned g h with
      | none => simp only [step, fuego_wallet_disconnect_node, hgo]; exact hinv
      | some w =>
        simp only [step, fuego_wallet_disconnect_node, hgo]
        exact balInv_setW (hinv w (getOwned_wallet hgo))
  | refresh h =>
      cases hgo : getOwned g h with
      | none => simp only [step, fuego_wallet_refresh, hgo]; exact hinv
      | some w =>
        simp only [step, fuego_wallet_refresh, hgo]
        exact balInv_of_eq (update_sync_progress_fields w).1
          (update_sync_progress_fields w).2.1 (hinv w (getOwned_wallet hgo))
  | rescan h sh =>
      cases hgo : getOwned g h with
      | none => simp only [step, fuego_wallet_rescan_blockchain, hgo]; exact hinv
      | some w =>
        simp only [step, fuego_wallet_rescan_blockchain, hgo]
        exact balInv_setW (hinv w (getOwned_wallet hgo))
  | networkStatus h =>
      cases hgo : getOwned g h with
      | none => simp only [step, fuego_wallet_get_network_status, hgo]; exact hinv
      | some w =>
        simp only [step, fuego_wallet_get_network_status, hgo]
        exact balInv_of_eq (update_sync_progress_fields w).1
          (update_sync_progress_fields w).2.1 (hinv w (getOwned_wallet hgo))
  | walletInfo h now =>
      cases hgo : getOwned g h with
      | none => simp only [step, fuego_wallet_get_wallet_info, hgo]; exact hinv
      | some w =>
        simp only [step, fuego_wallet_get_wallet_info, hgo]
        exact balInv_of_eq (update_sync_progress_fields w).1
          (update_sync_progress_fields w).2.1 (hinv w (getOwned_wallet hgo))
  | createDeposit h amount term now =>
      cases hgo : getOwned g h with
      | none => simp only [step, fuego_wallet_create_deposit, hgo]; exact hinv
      | some w =>
        simp only [step, fuego_wallet_create_deposit, hgo]
        exact balInv_setW (hinv w (getOwned_wallet hgo))
  | withdrawDeposit h id =>
      cases hgo : getOwned g h with
      | none => simp only [step, fuego_wallet_withdraw_deposit, hgo]; exact hinv
      | some w =>
        simp only [step, fuego_wallet_withdraw_deposit, hgo]
        exact balInv_setW (hinv w (getOwned_wallet hgo))
  | startMining h threads now =>
      cases hgo : getOwned g h with
      | none => simp only [step, fuego_wallet_start_mining, hgo]; exact hinv
      | some w =>
        simp only [step, fuego_wallet_start_mining, hgo]
        split
        · exact hinv
        · split
          · exact hinv
          · exact balInv_setW (hinv w (getOwned_wallet hgo))
  | stopMining h =>
      cases hgo : getOwned g h with
      | none => simp only [step, fuego_wallet_stop_mining, hgo]; exact hinv
      | some w =>
        simp only [step, fuego_wallet_stop_mining, hgo]
        split
        · exact hinv
        · exact balInv_setW (hinv w (getOwned_wallet hgo))
  | setMiningPool h p wn =>
      cases hgo : getOwned g h with
      | none => simp only [step, fuego_wallet_set_mining_pool, hgo]; exact hinv
      | some w =>
        simp only [step, fuego_wallet_set_mining_pool, hgo]
        exact balInv_setW (hinv w (getOwned_wallet hgo))
  | deriveKeys h seed =>
      cases hgo : getOwned g h with
      | none => simp only [step, fuego_wallet_derive_keys_from_seed, hgo]; exact hinv
      | some w =>
        simp only [step, fuego_wallet_derive_keys_from_seed, hgo]
        split
        · exact hinv
        · exact balInv_setW (hinv w (getOwned_wallet hgo))
  | importKeys h v sp a =>
      cases hgo : getOwned g h with
      | none => simp only [step, fuego_wallet_import_keys, hgo]; exact hinv
      | some w =>
        simp only [step, fuego_wallet_import_keys, hgo]
        exact balInv_setW (hinv w (getOwned_wallet hgo))
  | addEntry h a l dsc now =>
      cases hgo : getOwned g h with
      | none => simp only [step, fuego_wallet_add_address_book_entry, hgo]; exact hinv
      | some w =>
        simp only [step, fuego_wallet_add_address_book_entry, hgo]
        split
        · exact hinv
        · exact balInv_setW (hinv w (getOwned_wallet hgo))
  | removeEntry h a =>
      cases hgo : getOwned g h with
      | none => simp only [step, fuego_wallet_remove_address_book_entry, hgo]; exact hinv
      | some w =>
        simp only [step, fuego_wallet_remove_address_book_entry, hgo]
        split
        · exact balInv_setW (hinv w (getOwned_wallet hgo))
        · exact hinv
  | updateEntry h a l dsc =>
      cases hgo : getOwned g h with
      | none => simp only [step, fuego_wallet_update_address_book_entry, hgo]; exact hinv
      | some w =>
        simp only [step, fuego_wallet_update_address_book_entry, hgo]
        exact balInv_setW (hinv w (getOwned_wallet hgo))
  | markUsed h a now =>
      cases hgo : getOwned g h with
      | none => simp only [step, fuego_wallet_mark_address_used, hgo]; exact hinv
      | some w =>
        simp only [step, fuego_wallet_mark_address_used, hgo]
        exact balInv_setW (hinv w (getOwned_wallet hgo))
  | syncIter d =>
      cases hgw : g.wallet with
      | none => simp only [step, onWallet, hgw]; exact hinv
      | some w =>
        simp only [step, onWallet, hgw]
        exact balInv_of_eq (sync_thread_step_fields w d).1
          (sync_thread_step_fields w d).2.1 (hinv w hgw)
  | miningIter r now =>
      cases hgw : g.wallet with
      | none => simp only [step, onWallet, hgw]; exact hinv
      | some w =>
        simp only [step, onWallet, hgw]
        exact balInv_of_eq (mining_thread_step_sync w r now).2.2.1
          (mining_thread_step_sync w r now).2.2.2.1 (hinv w hgw)

/-! ### The deposit-status invariant: no deposit ever becomes unlocked -/

/-- Every deposit of the owned wallet has status "locked". -/
def DepositsLocked (g : Global) : Prop :=
  ∀ w, g.wallet = some w → ∀ d ∈ w.deposits, d.status = "locked"

theorem depositsLocked_setW {g : Global} {w : RealFuegoWallet}
    (hw : ∀ d ∈ w.deposits, d.status = "locked") : DepositsLocked (setW g w) := by
  intro w' hw'
  rw [setW_wallet] at hw'
  cases hw'
  exact hw

theorem depositsLocked_of_eq {g : Global} {w w' : RealFuegoWallet}
    (hd : w'.deposits = w.deposits)
    (hw : ∀ d ∈ w.deposits, d.status = "locked") : DepositsLocked (setW g w') :=
  depositsLocked_setW (by rw [hd]; exact hw)

/-- On a list whose deposits are all "locked", the withdraw search finds
nothing to spend and returns the list unchanged with a null hash. -/
theorem withdrawFirst_locked (net : Nat) (id : String) (ds : List Deposit)
    (hds : ∀ d ∈ ds, d.status = "locked") :
    withdrawFirst net id ds = (none, ds) := by
  induction ds with
  | nil => rfl
  | cons d rest ih =>
    have hd : d.status = "locked" := hds d (by simp)
    have hrest := ih (fun d' hd' => hds d' (by simp [hd']))
    unfold withdrawFirst
    by_cases h1 : d.id = id
    · have h2 : ¬ (d.status = "unlocked") := by rw [hd]; decide
      rw [if_pos h1, if_neg h2]
    · rw [if_neg h1, hrest]

theorem depositsLocked_step (g : Global) (op : Op) (hinv : DepositsLocked g) :
    DepositsLocked (step g op) := by
  cases op with
  | create pw fp rh addr ptr =>
      intro w hw; cases hw; intro d hd; cases hd
  | openWallet fp pw addr ptr =>
      intro w hw; cases hw; intro d hd; cases hd
  | close h =>
      cases hgo : getOwned g h with
      | none => simp only [step, fuego_wallet_close, hgo]; exact hinv
      | some w =>
        simp only [step, fuego_wallet_close, hgo]
        exact depositsLocked_setW (hinv w (getOwned_wallet hgo))
  | send h amount now =>
      cases hgo : getOwned g h with
      | none => simp only [step, fuego_wallet_send_transaction, hgo]; exact hinv
      | some w =>
        simp only [step, fuego_wallet_send_transaction, hgo]
        split
        · exact depositsLocked_setW (hinv w (getOwned_wallet hgo))
        · exact hinv
  | connectNode h =>
      cases hgo : getOwned g h with
      | none => simp only [step, fuego_wallet_connect_node, hgo]; exact hinv
      | some w =>
        simp only [step, fuego_wallet_connect_node, hgo]
        exact depositsLocked_setW (hinv w (getOwned_wallet hgo))
  | disconnectNode h =>
      cases hgo : getOwned g h with
      | none => simp only [step, fuego_wallet_disconnect_node, hgo]; exact hinv
      | some w =>
        simp only [step, fuego_wallet_disconnect_node, hgo]
        exact depositsLocked_setW (hinv w (getOwned_wallet hgo))
  | refresh h =>
      cases hgo : getOwned g h with
      | none => simp only [step, fuego_wallet_refresh, hgo]; exact hinv
      | some w =>
        simp only [step, fuego_wallet_refresh, hgo]
        exact depositsLocked_of_eq (update_sync_progress_fields w).2.2
          (hinv w (getOwned_wallet hgo))
  | rescan h sh =>
      cases hgo : getOwned g h with
      | none => simp only [step, fuego_wallet_rescan_blockchain, hgo]; exact hinv
      | some w =>
        simp only [step, fuego_wallet_rescan_blockchain, hgo]
        exact depositsLocked_setW (hinv w (getOwned_wallet hgo))
  | networkStatus h =>
      cases hgo : getOwned g h with
      | none => simp only [step, fuego_wallet_get_network_status, hgo]; exact hinv
      | some w =>
        simp only [step, fuego_wallet_get_network_status, hgo]
        exact depositsLocked_of_eq (update_sync_progress_fields w).2.2
          (hinv w (getOwned_wallet hgo))
  | walletInfo h now =>
      cases hgo : getOwned g h with
      | none => simp only [step, fuego_wallet_get_wallet_info, hgo]; exact hinv
      | some w =>
        simp only [step, fuego_wallet_get_wallet_info, hgo]
        exact depositsLocked_of_eq (update_sync_progress_fields w).2.2
          (hinv w (getOwned_wallet hgo))
  | createDeposit h amount term now =>
      cases hgo : getOwned g h with
      | none => simp only [step, fuego_wallet_create_deposit, hgo]; exact hinv
      | some w =>
        simp only [step, fuego_wallet_create_deposit, hgo]
        refine depositsLocked_setW ?_
        intro d hd
        rcases List.mem_append.mp hd with hmem | hmem
        · exact hinv w (getOwned_wallet hgo) d hmem
        · rcases List.mem_singleton.mp hmem with rfl
          rfl
  | withdrawDeposit h id =>
      cases hgo : getOwned g h with
      | none => simp only [step, fuego_wallet_withdraw_deposit, hgo]; exact hinv
      | some w =>
        simp only [step, fuego_wallet_withdraw_deposit, hgo]
        have hall := hinv w (getOwned_wallet hgo)
        refine depositsLocked_of_eq ?_ hall
        rw [withdrawFirst_locked w.network_height id w.deposits hall]
  | startMining h threads now =>
      cases hgo : getOwned g h with
      | none => simp only [step, fuego_wallet_start_mining, hgo]; exact hinv
      | some w =>
        simp only [step, fuego_wallet_start_mining, hgo]
        split
        · exact hinv
        · split
          · exact hinv
          · exact depositsLocked_setW (hinv w (getOwned_wallet hgo))
  | stopMining h =>
      cases hgo : getOwned g h with
      | none => simp only [step, fuego_wallet_stop_mining, hgo]; exact hinv
      | some w =>
        simp only [step, fuego_wallet_stop_mining, hgo]
        split
        · exact hinv
        · exact depositsLocked_setW (hinv w (getOwned_wallet hgo))
  | setMiningPool h p wn =>
      cases hgo : getOwned g h with
      | none => simp only [step, fuego_wallet_set_mining_pool, hgo]; exact hinv
      | some w =>
        simp only [step, fuego_wallet_set_mining_pool, hgo]
        exact depositsLocked_setW (hinv w (getOwned_wallet hgo))
  | deriveKeys h seed =>
      cases hgo : getOwned g h with
      | none => simp only [step, fuego_wallet_derive_keys_from_seed, hgo]; exact hinv
      | some w =>
        simp only [step, fuego_wallet_derive_keys_from_seed, hgo]
        split
        · exact hinv
        · exact depositsLocked_setW (hinv w (getOwned_wallet hgo))
  | importKeys h v sp a =>
      cases hgo : getOwned g h with
      | none => simp only [step, fuego_wallet_import_keys, hgo]; exact hinv
      | some w =>
        simp only [step, fuego_wallet_import_keys, hgo]
        exact depositsLocked_setW (hinv w (getOwned_wallet hgo))
  | addEntry h a l dsc now =>
      cases hgo : getOwned g h with
      | none => simp only [step, fuego_wallet_add_address_book_entry, hgo]; exact hinv
      | some w =>
        simp only [step, fuego_wallet_add_address_book_entry, hgo]
        split
        · exact hinv
        · exact depositsLocked_setW (hinv w (getOwned_wallet hgo))
  | removeEntry h a =>
      cases hgo : getOwned g h with
      | none => simp only [step, fuego_wallet_remove_address_book_entry, hgo]; exact hinv
      | some w =>
        simp only [step, fuego_wallet_remove_address_book_entry, hgo]
        split
        · exact depositsLocked_setW (hinv w (getOwned_wallet hgo))
        · exact hinv
  | updateEntry h a l dsc =>
      cases hgo : getOwned g h with
      | none => simp only [step, fuego_wallet_update_address_book_entry, hgo]; exact hinv
      | some w =>
        simp only [step, fuego_wallet_update_address_book_entry, hgo]
        exact depositsLocked_setW (hinv w (getOwned_wallet hgo))
  | markUsed h a now =>
      cases hgo : getOwned g h with
      | none => simp only [step, fuego_wallet_mark_address_used, hgo]; exact hinv
      | some w =>
        simp only [step, fuego_wallet_mark_address_used, hgo]
        exact depositsLocked_setW (hinv w (getOwned_wallet hgo))
  | syncIter d =>
      cases hgw : g.wallet with
      | none => simp only [step, onWallet, hgw]; exact hinv
      | some w =>
        simp only [step, onWallet, hgw]
        exact depositsLocked_of_eq (sync_thread_step_fields w d).2.2 (hinv w hgw)
  | miningIter r now =>
      cases hgw : g.wallet with
      | none => simp only [step, onWallet, hgw]; exact hinv
      | some w =>
        simp only [step, onWallet, hgw]
        exact depositsLocked_of_eq (mining_thread_step_sync w r now).2.2.2.2 (hinv w hgw)

/-- The all-locked property holds in every reachable state. -/
theorem depositsLocked_foldl (ops : List Op) (g : Global) (hinv : DepositsLocked g) :
    DepositsLocked (ops.foldl step g) := by
  induction ops generalizing g with
  | nil => exact hinv
  | cons op rest ih => exact ih (step g op) (depositsLocked_step g op hinv)

theorem reach_depositsLocked (ops : List Op) : DepositsLocked (reach ops) :=
  depositsLocked_foldl ops initGlobal (fun w hw => by cases hw)

/-! ### Further helper lemmas -/

theorem getOwned_ptr {g : Global} {h : Nat} {w : RealFuegoWallet}
    (hw : getOwned g h = some w) : h = g.ptr := by
  unfold getOwned at hw
  split at hw
  · assumption
  · exact absurd hw (by simp)

theorem getOwned_setW {g : Global} {h : Nat} (hp : h = g.ptr)
    (w' : RealFuegoWallet) : getOwned (setW g w') h = some w' := by
  unfold getOwned setW
  simp [hp]

theorem setW_self {g : Global} {w : RealFuegoWallet} (hw : g.wallet = some w) :
    setW g w = g := by
  cases g
  cases hw
  rfl

@[simp] theorem depositsOf_setW (g : Global) (w : RealFuegoWallet) :
    depositsOf (setW g w) = w.deposits := rfl

/-! ### Concrete states used when analysing the claims -/

/-- A wallet whose unlocked balance is strictly below its balance; the
invariant claims quantify over every such state. -/
def wGap : RealFuegoWallet :=
  { mkRealFuegoWallet "fireAddrA" with
      is_open := true, balance := 100, unlocked_balance := 50 }

/-- The process state owning wGap at address 1. -/
def gGap : Global := ⟨some wGap, 1⟩

/-- Create a wallet, connect (sync worker starts), start mining with two
threads, then close. -/
def closeTrace : List Op :=
  [.create "pw" "wallet.bin" 0 "fireAddrA" 1, .connectNode 1,
   .startMining 1 2 10, .close 1]

def gClosed : Global := reach closeTrace

/-! ### C1 -/

/-- C1: evaluation of the code at the failing input.  After create,
connect_node (sync worker running) and start_mining (mining worker
running), fuego_wallet_close sets open=false and connected=false but
leaves both workers running: the sync and mining running flags are still
set (and is_mining is still true), so the worker threads keep referencing
the wallet; close is nonetheless idempotent.  The claim that close stops
and joins both workers before returning is therefore false of the code,
while the repository documentation (the macOS teardown-race fix) requires
exactly that. -/
theorem close_leaves_workers_running :
    gClosed.wallet.map RealFuegoWallet.is_open = some false ∧
    gClosed.wallet.map RealFuegoWallet.is_connected = some false ∧
    gClosed.wallet.map RealFuegoWallet.sync_thread_running = some true ∧
    gClosed.wallet.map RealFuegoWallet.mining_thread_running = some true ∧
    gClosed.wallet.map RealFuegoWallet.is_mining = some true ∧
    fuego_wallet_close gClosed 1 = gClosed := by decide

/-! ### C2 -/

/-- The invariant exactly as the claim states it. -/
def BalanceLeInv (g : Global) : Prop :=
  ∀ w, g.wallet = some w → w.unlocked_balance ≤ w.balance

/-- C2 counterexample: the state gGap (balance 100, unlocked 50)
satisfies unlocked_balance less-or-equal balance, yet the send operation
with amount 80 (accepted, because 80 is at most the balance) yields a
state that violates it: the uint64 subtraction wraps unlocked_balance to
2 to-the 64 minus 30. -/
theorem send_breaks_balance_invariant :
    BalanceLeInv gGap ∧ ¬ BalanceLeInv (step gGap (.send 1 80 7)) := by
  constructor
  · intro w hw
    cases hw
    decide
  · intro hinv
    exact absurd (hinv _ rfl) (by decide)

/-- C2 witness: a send of 30 out of gGap satisfies the side condition
(30 is at most the unlocked balance 50) and the invariant is preserved. -/
theorem balance_invariant_preserved_witness :
    BalInv gGap ∧ SendOk gGap (Op.send 1 30 7) ∧
    BalInv (step gGap (Op.send 1 30 7)) := by
  have h1 : BalInv gGap := by
    intro w hw
    cases hw
    exact ⟨by decide, by decide, by decide⟩
  have h2 : SendOk gGap (Op.send 1 30 7) := by
    intro w hw
    have hw' : some wGap = some w := hw
    injection hw' with h3
    subst h3
    left
    decide
  exact ⟨h1, h2, balance_invariant_preserved gGap (Op.send 1 30 7) h1 h2⟩

/-! ### C3 -/

/-- The result of sending 80 out of gGap (balance 100, unlocked 50). -/
def sendGapRes : Option String × Global := fuego_wallet_send_transaction gGap 1 80 7

/-- C3 counterexample: with balance 100 and unlocked balance 50, sending
amount 80 (which the operation accepts since 80 is at most the balance)
returns the provisional hash and decreases the balance by 80, but the
unlocked balance does not decrease by 80 (it wraps to 2 to-the 64 minus
30), and the transaction record observable for the appended hash does not
carry amount -80, zero confirmations and pending status: the lookup
reports the fixed placeholder amount -10000000 with 10 confirmations,
confirmed and not pending. -/
theorem send_transaction_record_mismatch :
    sendGapRes.1 = some "real_tx_7" ∧
    sendGapRes.2.wallet.map RealFuegoWallet.balance = some 20 ∧
    sendGapRes.2.wallet.map RealFuegoWallet.unlocked_balance =
      some 18446744073709551586 ∧
    ((18446744073709551586 : Int) ≠ 50 - 80) ∧
    (fuego_wallet_get_transaction_by_hash sendGapRes.2 1 "real_tx_7" 9).map
      TransactionInfo.amount = some (-10000000) ∧
    ((-10000000 : Int) ≠ -80) ∧
    (fuego_wallet_get_transaction_by_hash sendGapRes.2 1 "real_tx_7" 9).map
      TransactionInfo.is_pending = some false ∧
    (fuego_wallet_get_transaction_by_hash sendGapRes.2 1 "real_tx_7" 9).map
      TransactionInfo.confirmations = some 10 := by decide

/-- C3 (amended): on an owned open wallet, a send of amount at most both
balance and unlocked balance decreases balance and unlocked balance by
exactly the amount, appends exactly one hash to the history and returns
that hash; the stored history holds only the hash, and looking it up
reports the fixed placeholder record (amount -10000000, fee 100000, 10
confirmations, confirmed, not pending) rather than amount minus-A pending
with zero confirmations. -/
theorem send_transaction_ok (g : Global) (h amount now now2 : Nat)
    (w : RealFuegoWallet) (hw : getOwned g h = some w) (hopen : w.is_open = true)
    (hbal : amount ≤ w.balance) (hunl : amount ≤ w.unlocked_balance)
    (hb64 : w.balance < U64) (hu64 : w.unlocked_balance < U64) :
    fuego_wallet_send_transaction g h amount now =
      (some (txHashOf now),
       setW g { w with balance := w.balance - amount,
                       unlocked_balance := w.unlocked_balance - amount,
                       transaction_hashes := w.transaction_hashes ++ [txHashOf now] }) ∧
    fuego_wallet_get_transaction_by_hash
        (setW g { w with balance := w.balance - amount,
                         unlocked_balance := w.unlocked_balance - amount,
                         transaction_hashes := w.transaction_hashes ++ [txHashOf now] })
        h (txHashOf now) now2 =
      some { id := txHashOf now, hash := txHashOf now, amount := -10000000,
             fee := 100000, height := u64sub w.network_height 5,
             timestamp := now2, confirmations := 10, is_confirmed := true,
             is_pending := false, unlock_time := 0 } := by
  constructor
  · simp only [fuego_wallet_send_transaction, hw]
    rw [if_pos hbal, u64sub_eq_sub hbal hb64, u64sub_eq_sub hunl hu64]
  · simp only [fuego_wallet_get_transaction_by_hash,
      getOwned_setW (getOwned_ptr hw)]
    rw [if_pos (by simp)]

/-- C3 witness: sending 30 out of gGap. -/
theorem send_transaction_ok_witness :
    fuego_wallet_send_transaction gGap 1 30 7 =
      (some (txHashOf 7),
       setW gGap { wGap with
                   balance := 70,
                   unlocked_balance := 20,
                   transaction_hashes := ["real_tx_7"] }) := by
  have hmain := (send_transaction_ok gGap 1 30 7 9 wGap rfl rfl (by decide)
    (by decide) (by decide) (by decide)).1
  rw [hmain]
  decide

/-! ### C4 -/

/-- C4: on an owned open wallet, a send of amount strictly above the
balance fails (null result, the insufficient-funds outcome) and leaves
the whole process state unchanged, the balances and history with it. -/
theorem send_transaction_insufficient_funds (g : Global) (h amount now : Nat)
    (w : RealFuegoWallet) (hw : getOwned g h = some w)
    (hopen : w.is_open = true) (hgt : w.balance < amount) :
    fuego_wallet_send_transaction g h amount now = (none, g) := by
  simp only [fuego_wallet_send_transaction, hw]
  rw [if_neg (by omega)]

/-- C4 witness: sending 200 out of gGap (balance 100) fails and leaves
the state unchanged. -/
theorem send_transaction_insufficient_funds_witness :
    fuego_wallet_send_transaction gGap 1 200 7 = (none, gGap) :=
  send_transaction_insufficient_funds gGap 1 200 7 wGap rfl rfl (by decide)

/-! ### C5 -/

/-- C5: evaluation of the code against the claim.  In every reachable
state, every deposit still has status "locked": no code path ever assigns
status "unlocked" (creation writes "locked" and the only other write,
to "spent", is guarded by a status that is never reached), so the
locked-to-unlocked maturity transition the claim describes does not
exist, a status query returns the list with statuses unchanged, and
withdraw_deposit always returns null and leaves the state unchanged —
even for a matured deposit whose unlock height the sync height has
reached. -/
theorem withdraw_deposit_never_succeeds (ops : List Op) (h : Nat) (id : String) :
    (fuego_wallet_withdraw_deposit (reach ops) h id).1 = none ∧
    (fuego_wallet_withdraw_deposit (reach ops) h id).2 = reach ops ∧
    ∀ d ∈ depositsOf (reach ops), d.status = "locked" := by
  have hl := reach_depositsLocked ops
  refine ⟨?_, ?_, ?_⟩
  · cases hgo : getOwned (reach ops) h with
    | none => simp only [fuego_wallet_withdraw_deposit, hgo]
    | some w =>
      simp only [fuego_wallet_withdraw_deposit, hgo,
        withdrawFirst_locked w.network_height id w.deposits
          (hl w (getOwned_wallet hgo))]
  · cases hgo : getOwned (reach ops) h with
    | none => simp only [fuego_wallet_withdraw_deposit, hgo]
    | some w =>
      simp only [fuego_wallet_withdraw_deposit, hgo,
        withdrawFirst_locked w.network_height id w.deposits
          (hl w (getOwned_wallet hgo))]
      exact setW_self (getOwned_wallet hgo)
  · intro d hd
    cases hgw : (reach ops).wallet with
    | none => simp only [depositsOf, hgw] at hd; cases hd
    | some w =>
      simp only [depositsOf, hgw] at hd
      exact hl w hgw d hd

/-- A deposit created with term 0 before any node connection: the network
height is still 0, so unlock_height = 0 and the deposit is mature at once
(sync height 0 has reached it); it nonetheless stays "locked". -/
def lockedTrace : List Op :=
  [.create "pw" "wallet.bin" 0 "fireAddrA" 1, .createDeposit 1 1000 0 5]

/-- C5 witness: on the concrete trace the matured deposit is still
reported "locked" by the status query, its unlock height 0 is at most the
sync height 0, and the withdrawal returns null. -/
theorem withdraw_deposit_never_succeeds_witness :
    (fuego_wallet_withdraw_deposit (reach lockedTrace) 1 "deposit_1000_0_5").1 =
      none ∧
    (fuego_wallet_get_deposits (reach lockedTrace) 1).map
      (List.map Deposit.status) = some ["locked"] ∧
    (fuego_wallet_get_deposits (reach lockedTrace) 1).map
      (List.map Deposit.unlock_height) = some [0] ∧
    (reach lockedTrace).wallet.map RealFuegoWallet.sync_height = some 0 := by
  refine ⟨(withdraw_deposit_never_succeeds lockedTrace 1 "deposit_1000_0_5").1,
    by decide, by decide, by decide⟩

/-! ### C6 -/

/-- Create a wallet and connect it: sync height 1000, network height
964943, both workers of the original defect armed. -/
def connectTrace : List Op :=
  [.create "pw" "wallet.bin" 0 "fireAddrA" 1, .connectNode 1]

def gConnected : Global := reach connectTrace

/-- C6 counterexample: on the connected wallet the current sync height is
1000 and the network height is 964943; a deposit with term 30 gets
unlock_height 964943 + 30 * 720 = 986543, not
current_sync_height + 30 * 720 = 22600.  The code uses the network
(target) height, not the current sync height. -/
theorem create_deposit_uses_network_height :
    gConnected.wallet.map RealFuegoWallet.sync_height = some 1000 ∧
    gConnected.wallet.map RealFuegoWallet.network_height = some 964943 ∧
    (depositsOf (fuego_wallet_create_deposit gConnected 1 5 30 3).2).map
      Deposit.unlock_height = [986543] ∧
    (986543 ≠ 1000 + 30 * 720) := by decide

/-- C6 (amended): create_deposit appends one deposit whose unlock height
is the network height plus term * 24 * 60 * 60 / 120 computed in uint32
arithmetic — the base is the network (target) height, not the current
sync height; whenever term * 86400 does not overflow uint32 the added
block count is exactly term * 720, i.e. blocks_per_day = 720 from the
2-minute block target. -/
theorem create_deposit_unlock_height (g : Global) (h amount term now : Nat)
    (w : RealFuegoWallet) (hw : getOwned g h = some w) :
    (fuego_wallet_create_deposit g h amount term now).1 =
      some (depositIdOf amount term now) ∧
    depositsOf (fuego_wallet_create_deposit g h amount term now).2 =
      w.deposits ++ [{
        id := depositIdOf amount term now,
        amount := amount,
        term := term,
        status := "locked",
        unlock_height := u64 (w.network_height + term * 86400 % U32 / 120),
        unlock_time := "TBD",
        creating_transaction_hash := "tx_" ++ depositIdOf amount term now,
        creating_height := w.network_height,
        creating_time := "Now",
        spending_transaction_hash := "",
        spending_height := 0,
        spending_time := "",
        deposit_type := "Term Deposit" }] ∧
    (term * 86400 < U32 →
      u64 (w.network_height + term * 86400 % U32 / 120) =
        u64 (w.network_height + term * 720)) := by
  refine ⟨?_, ?_, ?_⟩
  · simp only [fuego_wallet_create_deposit, hw]
  · simp only [fuego_wallet_create_deposit, hw, depositsOf_setW, depositBlocks]
  · intro ht
    rw [Nat.mod_eq_of_lt ht]
    have hdiv : term * 86400 / 120 = term * 720 := by omega
    rw [hdiv]

/-- C6 witness: the deposit created on the connected wallet carries id
deposit_5_30_3 and unlock height 986543 = 964943 + 30 * 720. -/
theorem create_deposit_unlock_height_witness :
    (fuego_wallet_create_deposit gConnected 1 5 30 3).1 = some "deposit_5_30_3" ∧
    (depositsOf (fuego_wallet_create_deposit gConnected 1 5 30 3).2).map
      Deposit.unlock_height = [986543] ∧
    (986543 : Nat) = 964943 + 30 * 720 := by
  refine ⟨(create_deposit_unlock_height gConnected 1 5 30 3 _ rfl).1,
    by decide, by decide⟩

/-! ### C8 -/

/-- Create, connect, then disconnect: the syncing flag is cleared while
the sync height is still far below the target. -/
def disconnectTrace : List Op :=
  [.create "pw" "wallet.bin" 0 "fireAddrA" 1, .connectNode 1, .disconnectNode 1]

def gDisc : Global := reach disconnectTrace

/-- C8 counterexample: in the reachable state after disconnect_node the
syncing flag is false although the current height 1000 differs from the
target height 964943, so syncing = false is not equivalent to
current = target. -/
theorem syncing_false_before_target :
    gDisc.wallet.map RealFuegoWallet.is_syncing = some false ∧
    gDisc.wallet.map RealFuegoWallet.sync_height = some 1000 ∧
    gDisc.wallet.map RealFuegoWallet.network_height = some 964943 ∧
    (1000 ≠ 964943) := by decide

/-- C8 (amended): at every reachable state the current sync height is at
most the network height, and every sync-advancing step keeps it clamped:
both the synchronous update_sync_progress (driven by refresh and the
status queries) and the worker iteration sync_thread_step (the body of
sync_thread_func) never move the height above the unchanged target, and
each clears the syncing flag only when the height it sets equals the
target.  The claimed equivalence of syncing = false with current = target
does not hold (disconnect_node clears syncing early). -/
theorem sync_height_le_network_and_clamp :
    (∀ ops : List Op, SyncInv (reach ops)) ∧
    (∀ w : RealFuegoWallet, w.sync_height ≤ w.network_height →
      (update_sync_progress w).sync_height ≤ w.network_height ∧
      (update_sync_progress w).network_height = w.network_height ∧
      ((update_sync_progress w).is_syncing = false →
        w.is_syncing = false ∨
        (update_sync_progress w).sync_height = w.network_height)) ∧
    (∀ (w : RealFuegoWallet) (d : Nat), w.sync_height ≤ w.network_height →
      (sync_thread_step w d).sync_height ≤ w.network_height ∧
      (sync_thread_step w d).network_height = w.network_height ∧
      ((sync_thread_step w d).is_syncing = false →
        w.is_syncing = false ∨
        (sync_thread_step w d).sync_height = w.network_height)) := by
  refine ⟨?_, ?_, ?_⟩
  · intro ops
    exact syncInv_foldl ops initGlobal (fun w hw => by cases hw)
  · intro w hw
    unfold update_sync_progress
    split
    · split
      · exact ⟨Nat.le_refl _, rfl, fun _ => Or.inr rfl⟩
      · next hnlt =>
        exact ⟨Nat.le_of_not_lt hnlt, rfl, fun hfalse => Or.inl hfalse⟩
    · exact ⟨hw, rfl, fun hfalse => Or.inl hfalse⟩
  · intro w d hw
    unfold sync_thread_step
    split
    · split
      · exact ⟨Nat.le_refl _, rfl, fun _ => Or.inr rfl⟩
      · next hnlt =>
        exact ⟨Nat.le_of_not_lt hnlt, rfl, fun hfalse => Or.inl hfalse⟩
    · exact ⟨hw, rfl, fun hfalse => Or.inl hfalse⟩

/-- A wallet in mid-sync used to instantiate the clamp statements. -/
def wMidSync : RealFuegoWallet :=
  { mkRealFuegoWallet "fireAddrA" with
      is_open := true, is_connected := true, is_syncing := true,
      sync_height := 500, network_height := 964943 }

/-- C8 witness: the reachable-state bound instantiated on the connected
trace (current 1000, target 964943), and the clamp statements for both
the synchronous update and a worker iteration (draw 900, i.e. an advance
of 1000) on a mid-sync wallet with its sync worker running. -/
theorem sync_height_le_network_and_clamp_witness :
    ((1000 : Nat) ≤ 964943) ∧
    (update_sync_progress wMidSync).sync_height ≤ wMidSync.network_height ∧
    (sync_thread_step { wMidSync with sync_thread_running := true } 900).sync_height ≤
      wMidSync.network_height := by
  refine ⟨?_, ?_, ?_⟩
  · exact sync_height_le_network_and_clamp.1 connectTrace _ rfl
  · exact (sync_height_le_network_and_clamp.2.1 wMidSync (by decide)).1
  · exact (sync_height_le_network_and_clamp.2.2
      { wMidSync with sync_thread_running := true } 900 (by decide)).1

/-! ### C9 -/

/-- Create a wallet at handle 1 and close it. -/
def closedTrace : List Op := [.create "pw" "wallet.bin" 0 "fireAddrA" 1, .close 1]

def gAfterClose : Global := reach closedTrace

/-- C9 counterexample: after close() the wallet reports not-open, yet a
subsequent send through the same (still matching) handle returns a
transaction hash instead of a null result and mutates the state by
appending to the history: operations do not check the open flag. -/
theorem closed_wallet_send_succeeds :
    fuego_wallet_is_open gAfterClose 1 = false ∧
    (fuego_wallet_send_transaction gAfterClose 1 0 3).1 = some "real_tx_3" ∧
    (fuego_wallet_send_transaction gAfterClose 1 0 3).2.wallet.map
      RealFuegoWallet.transaction_hashes = some ["real_tx_3"] ∧
    ((fuego_wallet_send_transaction gAfterClose 1 0 3).2 ≠ gAfterClose) := by decide

/-- C9 (amended): operations gate only on handle identity with the owned
instance, never on the open flag.  On any owned wallet with
is_open = false, send_transaction still performs its full effect,
create_deposit still appends a deposit and returns its id, and
connect_node still reports success: a null/empty result arises only from
a handle mismatch, not from the closed state. -/
theorem closed_wallet_operations_proceed (g : Global) (h amount term now : Nat)
    (w : RealFuegoWallet) (hw : getOwned g h = some w)
    (hclosed : w.is_open = false) (hamt : amount ≤ w.balance) :
    (fuego_wallet_send_transaction g h amount now).1 = some (txHashOf now) ∧
    (fuego_wallet_send_transaction g h amount now).2 =
      setW g { w with
               balance := u64sub w.balance amount,
               unlocked_balance := u64sub w.unlocked_balance amount,
               transaction_hashes := w.transaction_hashes ++ [txHashOf now] } ∧
    (fuego_wallet_create_deposit g h amount term now).1 =
      some (depositIdOf amount term now) ∧
    (fuego_wallet_connect_node g h).1 = true := by
  refine ⟨?_, ?_, ?_, ?_⟩
  · simp only [fuego_wallet_send_transaction, hw]
    rw [if_pos hamt]
  · simp only [fuego_wallet_send_transaction, hw]
    rw [if_pos hamt]
  · simp only [fuego_wallet_create_deposit, hw]
  · simp only [fuego_wallet_connect_node, hw]

/-- C9 witness: the closed wallet of gAfterClose accepts a send of 0. -/
theorem closed_wallet_operations_proceed_witness :
    (fuego_wallet_send_transaction gAfterClose 1 0 3).1 = some (txHashOf 3) ∧
    (fuego_wallet_create_deposit gAfterClose 1 0 30 3).1 =
      some (depositIdOf 0 30 3) ∧
    (fuego_wallet_connect_node gAfterClose 1).1 = true := by
  have hmain := closed_wallet_operations_proceed gAfterClose 1 0 30 3 _ rfl rfl
    (by decide)
  exact ⟨hmain.1, hmain.2.2.1, hmain.2.2.2⟩

/-! ### C10 -/

/-- C10 counterexample: with no wallet owned (pointer 0), the mismatched
handle 5 makes every guarded operation return its null value — but
fuego_wallet_estimate_transaction_fee discards its handle entirely and
returns the fixed fee 1000000, not a null/zero result. -/
theorem estimate_fee_ignores_handle :
    initGlobal.ptr = 0 ∧ ((5 : Nat) ≠ 0) ∧
    fuego_wallet_estimate_transaction_fee initGlobal 5 100 3 = 1000000 ∧
    ((1000000 : Nat) ≠ 0) := by decide

/-- C10 (amended): every modelled exported operation that consults its
wallet handle returns a null/zero/false result and leaves the process
state unchanged when the handle differs from the owned pointer;
fuego_wallet_estimate_transaction_fee alone ignores the handle and
returns the fixed fee 1000000 regardless. -/
theorem mismatched_handle_rejected (g : Global) (h : Nat) (hm : h ≠ g.ptr)
    (amount term now sh threads bufsz : Nat)
    (id addr label desc view spend pool worker seed txh : String) :
    fuego_wallet_close g h = g ∧
    fuego_wallet_is_open g h = false ∧
    fuego_wallet_get_balance g h = 0 ∧
    fuego_wallet_get_unlocked_balance g h = 0 ∧
    fuego_wallet_get_address g h bufsz = false ∧
    fuego_wallet_send_transaction g h amount now = (none, g) ∧
    fuego_wallet_get_transactions g h = none ∧
    fuego_wallet_get_transaction_by_hash g h txh now = none ∧
    fuego_wallet_cancel_transaction g h txh = false ∧
    fuego_wallet_connect_node g h = (false, g) ∧
    fuego_wallet_get_network_status g h = (none, g) ∧
    fuego_wallet_disconnect_node g h = (false, g) ∧
    fuego_wallet_refresh g h = (false, g) ∧
    fuego_wallet_rescan_blockchain g h sh = (false, g) ∧
    fuego_wallet_get_current_block_height g h = 0 ∧
    fuego_wallet_get_deposits g h = none ∧
    fuego_wallet_create_deposit g h amount term now = (none, g) ∧
    fuego_wallet_withdraw_deposit g h id = (none, g) ∧
    fuego_wallet_get_wallet_info g h now = (none, g) ∧
    fuego_wallet_start_mining g h threads now = (false, g) ∧
    fuego_wallet_stop_mining g h = (false, g) ∧
    fuego_wallet_set_mining_pool g h pool worker = (false, g) ∧
    fuego_wallet_derive_keys_from_seed g h seed = (false, g) ∧
    fuego_wallet_has_keys g h = false ∧
    fuego_wallet_import_keys g h view spend addr = (false, g) ∧
    fuego_wallet_add_address_book_entry g h addr label desc now = (false, g) ∧
    fuego_wallet_remove_address_book_entry g h addr = (false, g) ∧
    fuego_wallet_update_address_book_entry g h addr label desc = (false, g) ∧
    fuego_wallet_mark_address_used g h addr now = (false, g) ∧
    fuego_wallet_get_address_book g h = none ∧
    fuego_wallet_estimate_transaction_fee g h amount now = 1000000 := by
  have hnone : getOwned g h = none := by
    unfold getOwned
    rw [if_neg hm]
  refine ⟨?_, ?_, ?_, ?_, ?_, ?_, ?_, ?_, ?_, ?_, ?_, ?_, ?_, ?_, ?_, ?_, ?_,
    ?_, ?_, ?_, ?_, ?_, ?_, ?_, ?_, ?_, ?_, ?_, ?_, ?_, ?_⟩ <;>
    simp only [fuego_wallet_close, fuego_wallet_is_open, fuego_wallet_get_balance,
      fuego_wallet_get_unlocked_balance, fuego_wallet_get_address,
      fuego_wallet_send_transaction, fuego_wallet_get_transactions,
      fuego_wallet_get_transaction_by_hash, fuego_wallet_cancel_transaction,
      fuego_wallet_connect_node, fuego_wallet_get_network_status,
      fuego_wallet_disconnect_node, fuego_wallet_refresh,
      fuego_wallet_rescan_blockchain, fuego_wallet_get_current_block_height,
      fuego_wallet_get_deposits, fuego_wallet_create_deposit,
      fuego_wallet_withdraw_deposit, fuego_wallet_get_wallet_info,
      fuego_wallet_start_mining, fuego_wallet_stop_mining,
      fuego_wallet_set_mining_pool, fuego_wallet_derive_keys_from_seed,
      fuego_wallet_has_keys, fuego_wallet_import_keys,
      fuego_wallet_add_address_book_entry, fuego_wallet_remove_address_book_entry,
      fuego_wallet_update_address_book_entry, fuego_wallet_mark_address_used,
      fuego_wallet_get_address_book, fuego_wallet_estimate_transaction_fee,
      hnone]

/-- C10 witness: the handle 9 differs from gGap's pointer 1, so the
guarded operations reject it while the fee estimate still answers. -/
theorem mismatched_handle_rejected_witness :
    fuego_wallet_close gGap 9 = gGap ∧
    fuego_wallet_get_balance gGap 9 = 0 ∧
    fuego_wallet_send_transaction gGap 9 10 3 = (none, gGap) ∧
    fuego_wallet_estimate_transaction_fee gGap 9 10 3 = 1000000 := by
  have hmain := mismatched_handle_rejected gGap 9 (by decide) 10 30 3 0 2 64
    "d" "a" "l" "ds" "v" "s" "p" "w" "sd" "t"
  exact ⟨hmain.1, hmain.2.2.1, hmain.2.2.2.2.2.1,
    hmain.2.2.2.2.2.2.2.2.2.2.2.2.2.2.2.2.2.2.2.2.2.2.2.2.2.2.2.2.2.2⟩

end Fuego
